import Mathlib

/-!
Verification development for the eRPC per-thread RPC endpoint.

The definitions below are a shallow embedding of the repository's code:

* `src/src/rpc_impl/rpc_fault_inject.cc` — the fault-injection operations
  (`fault_inject_check_ok`, `fault_inject_resolve_server_rinfo_st`,
  `fault_inject_drop_tx_local_st`, `fault_inject_drop_tx_remote_st`,
  `fault_inject_reset_remote_epeer_st`).
* `src/apps/persistent_kv/persistent_kv.cc` — the server-side request
  batching machinery (`ServerContext`, `drain_batch`, `req_handler`, and the
  drain-on-idle check of `server_func`'s event loop).
* Parts of the Rpc core that are exercised by `src/tests/test_api_restrictions.cc`
  and `src/apps/consensus/client.h` but whose implementation files are not in
  the repository snapshot; those are modelled from the specification and each
  such definition carries a doc comment starting with `Modelled from the spec:`.

C++ `throw` / `assert` aborts are modelled as explicit error results; machine
integers are modelled as `Nat` / `Int` (no value in the modelled code can
overflow its C++ type on the inputs considered).
-/

/- ===================================================================
   Part 1. Fault injection (src/src/rpc_impl/rpc_fault_inject.cc)
   =================================================================== -/

/-- Session states, §4.3 of the spec (client session state machine). -/
inductive SessState where
  | connectInProgress
  | connected
  | disconnectInProgress
  | resetInProgress
  | errored
deriving DecidableEq, Repr

/-- A session, restricted to the fields read by the fault-injection code:
role flag, state, its local number, and the identity of the server peer
(`session->server.hostname` and `session->server.rpc_id`; the hostname is
modelled as a numeric host identifier). -/
structure Session where
  is_client : Bool
  sst : SessState
  local_session_num : Nat
  server_host : Nat
  server_rpc_id : Nat
deriving DecidableEq, Repr

/-- `Session::is_connected()`: the session state is `connected`. -/
def Session.is_connected (s : Session) : Bool :=
  match s.sst with
  | SessState.connected => true
  | _ => false

/-- The `faults` member of `Rpc`: flags set by fault-injection operations. -/
structure Faults where
  resolve_server_rinfo : Bool
  drop_tx_local : Bool
  drop_tx_local_countdown : Nat
deriving DecidableEq, Repr

/-- Session-management packet types, §4.4 of the spec. -/
inductive SmPktType where
  | kConnectReq
  | kConnectResp
  | kDisconnectReq
  | kDisconnectResp
  | kFaultDropTxRemote
  | kFaultResetPeerReq
  | kFaultResetPeerResp
deriving DecidableEq, Repr

/-- A session-management message on the endpoint's pending-SM queue: the
destination peer, the packet type, and the optional type-specific payload
(the packet-drop countdown for `kFaultDropTxRemote`). -/
structure SmMsg where
  dest_host : Nat
  dest_rpc_id : Nat
  pkt_type : SmPktType
  data : Option Nat
deriving DecidableEq, Repr

/-- The endpoint state visible to the fault-injection operations: the
creator thread id, the fault flags, the session table (`session_vec`, a
sparse vector of nullable session pointers) and the pending-SM queue. -/
structure RpcState where
  rpc_id : Nat
  creator_tid : Nat
  faults : Faults
  session_vec : List (Option Session)
  sm_queue : List SmMsg
deriving DecidableEq, Repr

/-- `in_creator()`: whether the calling thread is the endpoint's creator. -/
def RpcState.in_creator (st : RpcState) (tid : Nat) : Bool :=
  tid == st.creator_tid

/-- `is_usr_session_num_in_range(session_num)`: the signed session number
indexes into `session_vec`. -/
def is_usr_session_num_in_range (st : RpcState) (session_num : Int) : Bool :=
  decide (0 ≤ session_num ∧ session_num < (st.session_vec.length : Int))

/-- How a fault-injection operation can abort: `faultInjectionForbidden`
models the `std::runtime_error` thrown by `fault_inject_check_ok` (the
spec's `FAULT_INJECTION_FORBIDDEN`), `assertionFailure` models a failed
`assert` in a datapath-checks build. -/
inductive OpErr where
  | faultInjectionForbidden
  | assertionFailure
deriving DecidableEq, Repr

/-- `Rpc<TTr>::fault_inject_check_ok()`: throws unless fault injection is
compiled in (`kFaultInjection`) and the caller is the creator thread. -/
def fault_inject_check_ok (kFaultInjection : Bool) (st : RpcState) (tid : Nat) :
    Option OpErr :=
  if !kFaultInjection then some OpErr.faultInjectionForbidden
  else if !(st.in_creator tid) then some OpErr.faultInjectionForbidden
  else none

/-- `Rpc<TTr>::fault_inject_resolve_server_rinfo_st()`. A thrown error
leaves the endpoint unchanged, so the result pairs the optional error with
the resulting endpoint state. -/
def fault_inject_resolve_server_rinfo_st (kFaultInjection : Bool) (tid : Nat)
    (st : RpcState) : Option OpErr × RpcState :=
  match fault_inject_check_ok kFaultInjection st tid with
  | some e => (some e, st)
  | none =>
      (none, { st with faults := { st.faults with resolve_server_rinfo := true } })

/-- `Rpc<TTr>::fault_inject_drop_tx_local_st(pkt_countdown)`. -/
def fault_inject_drop_tx_local_st (kFaultInjection : Bool) (tid : Nat)
    (st : RpcState) (pkt_countdown : Nat) : Option OpErr × RpcState :=
  match fault_inject_check_ok kFaultInjection st tid with
  | some e => (some e, st)
  | none =>
      (none, { st with faults := { st.faults with
                 drop_tx_local := true,
                 drop_tx_local_countdown := pkt_countdown } })

/-- Modelled from the spec: `enqueue_sm_req_st` is not under `src/` (only its
call sites in `rpc_fault_inject.cc` are). Spec §4.4: session-management
messages are routed over a side channel to the peer endpoint and carry a
type and type-specific payload. The model appends one message addressed to
the session's server peer to the endpoint's pending-SM queue. -/
def enqueue_sm_req_st (st : RpcState) (session : Session) (pkt_type : SmPktType)
    (data : Option Nat) : RpcState :=
  { st with sm_queue := st.sm_queue ++
      [{ dest_host := session.server_host,
         dest_rpc_id := session.server_rpc_id,
         pkt_type := pkt_type,
         data := data }] }

/-- `Rpc<TTr>::fault_inject_drop_tx_remote_st(session_num, pkt_countdown)`:
after `fault_inject_check_ok`, asserts the session number is in range, the
table entry is non-null, and the session is connected and client-side; then
enqueues one `kFaultDropTxRemote` SM request carrying the countdown. -/
def fault_inject_drop_tx_remote_st (kFaultInjection : Bool) (tid : Nat)
    (st : RpcState) (session_num : Int) (pkt_countdown : Nat) :
    Option OpErr × RpcState :=
  match fault_inject_check_ok kFaultInjection st tid with
  | some e => (some e, st)
  | none =>
      if !(is_usr_session_num_in_range st session_num) then
        (some OpErr.assertionFailure, st)
      else
        match (st.session_vec.getD session_num.toNat none) with
        | none => (some OpErr.assertionFailure, st)
        | some session =>
            if !(session.is_connected && session.is_client) then
              (some OpErr.assertionFailure, st)
            else
              (none, enqueue_sm_req_st st session SmPktType.kFaultDropTxRemote
                 (some pkt_countdown))

/-- `Rpc<TTr>::fault_inject_reset_remote_epeer_st(session_num)`: after
`fault_inject_check_ok`, asserts the session number is in range, the table
entry is non-null, and the session is client-side and connected; then
enqueues one `kFaultResetPeerReq` SM request. -/
def fault_inject_reset_remote_epeer_st (kFaultInjection : Bool) (tid : Nat)
    (st : RpcState) (session_num : Int) : Option OpErr × RpcState :=
  match fault_inject_check_ok kFaultInjection st tid with
  | some e => (some e, st)
  | none =>
      if !(is_usr_session_num_in_range st session_num) then
        (some OpErr.assertionFailure, st)
      else
        match (st.session_vec.getD session_num.toNat none) with
        | none => (some OpErr.assertionFailure, st)
        | some session =>
            if !(session.is_client && session.is_connected) then
              (some OpErr.assertionFailure, st)
            else
              (none, enqueue_sm_req_st st session SmPktType.kFaultResetPeerReq none)

/- ===================================================================
   Part 2. Persistent-KV server batching (src/apps/persistent_kv/persistent_kv.cc)
   =================================================================== -/

/-- `kAppMaxServerBatch`: maximum requests processed by the server before
issuing a response. -/
def kAppMaxServerBatch : Nat := 16

/-- `sizeof(Key)`: two 8-byte fragments. -/
def sizeof_key : Nat := 16

/-- `sizeof(Value)`: four 8-byte fragments. -/
def sizeof_value : Nat := 32

/-- One incoming request as seen by the KV `req_handler`: the request
handle (modelled as a numeric identifier for the `erpc::ReqHandle`
pointer), the payload size of the request buffer, the address of the
request payload `req->buf` (the key sits at `buf`, a SET's value at
`buf + sizeof(Key)`), the address of the preallocated response payload
`pre_resp_msgbuf.buf`, and the pmica hash of the key (`pmica::HashMap` is
external to this repository, so the hash value is carried as input data). -/
structure KvReq where
  handle : Nat
  req_size : Nat
  buf : Nat
  resp_buf : Nat
  keyhash : Nat
deriving DecidableEq, Repr

/-- The per-thread `ServerContext` of the KV server: the request counter,
the batch counter, the five fixed-size per-batch arrays (modelled as lists
of length `kAppMaxServerBatch`), the ordered log of handles passed to
`enqueue_response` (modelling the response submissions), and
`stats.num_resps_tot`. -/
structure ServerContext where
  num_reqs_tot : Nat
  num_reqs_in_batch : Nat
  req_handle_arr : List Nat
  is_set_arr : List Bool
  key_ptr_arr : List Nat
  val_ptr_arr : List Nat
  keyhash_arr : List Nat
  resps : List Nat
  num_resps_tot : Nat
deriving DecidableEq, Repr

/-- Errors of the KV server model: `oobIndex` models an out-of-bounds write
into one of the fixed-size per-batch C arrays (undefined behaviour in the
source), `assertFailed` models a failed `assert`. -/
inductive KvErr where
  | oobIndex
  | assertFailed
deriving DecidableEq, Repr

/-- A bounds-checked array write: C's `a[i] = x` on a fixed-size array,
erroring out when `i` is past the end. -/
def arr_set {α : Type} (l : List α) (i : Nat) (x : α) : Option (List α) :=
  if i < l.length then some (l.set i x) else none

/-- `drain_batch(c)`: asserts the batch is non-empty, then (after the pmica
batch operation, which only fills the response payloads through the stored
pointers) calls `enqueue_response` for each of the `num_reqs_in_batch`
accumulated handles in order, adds the batch size to `stats.num_resps_tot`,
and resets `num_reqs_in_batch` to zero. -/
def drain_batch (c : ServerContext) : Except KvErr ServerContext :=
  if c.num_reqs_in_batch = 0 then Except.error KvErr.assertFailed
  else Except.ok { c with
    resps := c.resps ++ c.req_handle_arr.take c.num_reqs_in_batch,
    num_resps_tot := c.num_resps_tot + c.num_reqs_in_batch,
    num_reqs_in_batch := 0 }

/-- `req_handler(req_handle, context)` of the KV server: records the handle,
key pointer and key hash at index `batch_i = num_reqs_in_batch`; classifies
the request by payload size (`sizeof(Key)` is a GET whose value pointer is
the response payload, `sizeof(Key) + sizeof(Value)` is a SET whose value
pointer is `req->buf + sizeof(Key)`, anything else hits `assert(false)`);
increments `num_reqs_tot` and `num_reqs_in_batch`; and drains the batch
exactly when the counter reaches `kAppMaxServerBatch`. -/
def req_handler (c : ServerContext) (r : KvReq) : Except KvErr ServerContext :=
  match arr_set c.req_handle_arr c.num_reqs_in_batch r.handle,
        arr_set c.key_ptr_arr c.num_reqs_in_batch r.buf,
        arr_set c.keyhash_arr c.num_reqs_in_batch r.keyhash with
  | some rha, some kpa, some kha =>
      match (if r.req_size = sizeof_key then
               Except.ok (false, r.resp_buf)
             else if r.req_size = sizeof_key + sizeof_value then
               Except.ok (true, r.buf + sizeof_key)
             else (Except.error KvErr.assertFailed : Except KvErr (Bool × Nat))) with
      | Except.error e => Except.error e
      | Except.ok (is_set, val_ptr) =>
          match arr_set c.is_set_arr c.num_reqs_in_batch is_set,
                arr_set c.val_ptr_arr c.num_reqs_in_batch val_ptr with
          | some isa, some vpa =>
              let c1 : ServerContext :=
                { c with
                  req_handle_arr := rha, key_ptr_arr := kpa, keyhash_arr := kha,
                  is_set_arr := isa, val_ptr_arr := vpa,
                  num_reqs_tot := c.num_reqs_tot + 1,
                  num_reqs_in_batch := c.num_reqs_in_batch + 1 }
              if c1.num_reqs_in_batch = kAppMaxServerBatch then drain_batch c1
              else Except.ok c1
          | _, _ => Except.error KvErr.oobIndex
  | _, _, _ => Except.error KvErr.oobIndex

/-- The server context after `req_handler` has recorded request `r` (with
classification `is_set` and value pointer `val_ptr`) at index
`num_reqs_in_batch` and bumped both counters, before the possible batch
drain; used to state the characterization lemmas of `req_handler`. -/
def kv_record (c : ServerContext) (r : KvReq) (is_set : Bool) (val_ptr : Nat) :
    ServerContext :=
  { c with
    req_handle_arr := c.req_handle_arr.set c.num_reqs_in_batch r.handle,
    key_ptr_arr := c.key_ptr_arr.set c.num_reqs_in_batch r.buf,
    keyhash_arr := c.keyhash_arr.set c.num_reqs_in_batch r.keyhash,
    is_set_arr := c.is_set_arr.set c.num_reqs_in_batch is_set,
    val_ptr_arr := c.val_ptr_arr.set c.num_reqs_in_batch val_ptr,
    num_reqs_tot := c.num_reqs_tot + 1,
    num_reqs_in_batch := c.num_reqs_in_batch + 1 }

/-- One iteration of the inner loop of `server_func`: remember
`num_reqs_tot`, run the event loop once (which invokes `req_handler` for
each delivered request, in order), then, if no new requests were received
in this iteration and there are responses to send, drain the batch. -/
def ev_loop_iter (c : ServerContext) (reqs : List KvReq) :
    Except KvErr ServerContext :=
  let num_reqs_tot_start := c.num_reqs_tot
  match List.foldlM req_handler c reqs with
  | Except.error e => Except.error e
  | Except.ok c1 =>
      if c1.num_reqs_tot = num_reqs_tot_start ∧ 0 < c1.num_reqs_in_batch then
        drain_batch c1
      else Except.ok c1

/-- The `ServerContext` at server start: counters zero, arrays of size
`kAppMaxServerBatch` (their initial contents are never read before being
written), no responses sent. -/
def init_server_context : ServerContext :=
  { num_reqs_tot := 0
    num_reqs_in_batch := 0
    req_handle_arr := List.replicate kAppMaxServerBatch 0
    is_set_arr := List.replicate kAppMaxServerBatch false
    key_ptr_arr := List.replicate kAppMaxServerBatch 0
    val_ptr_arr := List.replicate kAppMaxServerBatch 0
    keyhash_arr := List.replicate kAppMaxServerBatch 0
    resps := []
    num_resps_tot := 0 }

/-- The five per-batch arrays have exactly `kAppMaxServerBatch` entries. -/
def ServerContext.arrays_wf (c : ServerContext) : Prop :=
  c.req_handle_arr.length = kAppMaxServerBatch ∧
  c.is_set_arr.length = kAppMaxServerBatch ∧
  c.key_ptr_arr.length = kAppMaxServerBatch ∧
  c.val_ptr_arr.length = kAppMaxServerBatch ∧
  c.keyhash_arr.length = kAppMaxServerBatch

/-- The structural invariant of the server context: the batch counter is
strictly below `kAppMaxServerBatch` and the five per-batch arrays have
exactly `kAppMaxServerBatch` entries. -/
def ServerContext.wf (c : ServerContext) : Prop :=
  c.num_reqs_in_batch < kAppMaxServerBatch ∧ c.arrays_wf

/-- The server states at which `req_handler` can next be entered: the
initial state, any state produced by a completed `req_handler` call, and
any state produced by the drain-on-idle step of `server_func`'s loop. -/
inductive KvReachable : ServerContext → Prop where
  | init : KvReachable init_server_context
  | handler {c c' : ServerContext} {r : KvReq} :
      KvReachable c → req_handler c r = Except.ok c' → KvReachable c'
  | idle_drain {c c' : ServerContext} :
      KvReachable c → 0 < c.num_reqs_in_batch →
      drain_batch c = Except.ok c' → KvReachable c'

/- ===================================================================
   Part 3. Rpc core behaviour exercised by src/tests/test_api_restrictions.cc
   and src/apps/consensus/client.h, modelled from the spec (the Rpc core's
   implementation files are not in the repository snapshot).
   =================================================================== -/

/-- Modelled from the spec: the datapath-context flag of the Rpc core
(`run_event_loop`, the `Rpc` destructor, `create_session`,
`destroy_session` are not under `src/`; only `test_api_restrictions.cc`
exercises them). Spec §5: a reentrancy flag records whether the endpoint is
currently inside a request handler or continuation; `kDatapathChecks` is
the debug-build flag enabling datapath misuse checks. -/
structure EndpointCtx where
  kDatapathChecks : Bool
  in_handler_or_cont : Bool
deriving DecidableEq, Repr

/-- Outcome of calling an endpoint operation that can be fatal. -/
inductive CallOutcome where
  | returned
  | fatalAbort
deriving DecidableEq, Repr

/-- Modelled from the spec: `run_event_loop`. Spec §5: "Event-loop
invocation from within a request handler or continuation is forbidden and
fatal (enforced by a reentrancy flag)"; the death test in
`test_api_restrictions.cc` is gated on `kDatapathChecks`, so the check is
active in debug builds. -/
def run_event_loop (ep : EndpointCtx) : CallOutcome :=
  if ep.kDatapathChecks && ep.in_handler_or_cont then CallOutcome.fatalAbort
  else CallOutcome.returned

/-- Modelled from the spec: deleting the Rpc endpoint. Spec §3:
"Destruction from inside a request handler or continuation is forbidden
(fatal)" (`test_api_restrictions.cc` notes this crashes even without
`kDatapathChecks`). -/
def delete_rpc (ep : EndpointCtx) : CallOutcome :=
  if ep.in_handler_or_cont then CallOutcome.fatalAbort
  else CallOutcome.returned

/-- Linux `EPERM`, the permission-denied errno; `test_api_restrictions.cc`
expects `-EPERM` from session-management calls made in a handler. -/
def EPERM : Int := 1

/-- `FORBIDDEN_CONTEXT`: the negative permission error returned by
session-management operations called from a request handler or
continuation. -/
def FORBIDDEN_CONTEXT : Int := -EPERM

/-- States of a session as seen by the session-management API model. -/
inductive UserSessState where
  | connectInProgress
  | connected
  | disconnectInProgress
deriving DecidableEq, Repr

/-- Modelled from the spec: the endpoint state visible to `create_session`
and `destroy_session` (their implementations are not under `src/`): the
reentrancy flag and the session table. -/
structure SmEndpoint where
  in_handler_or_cont : Bool
  sessions : List UserSessState
deriving DecidableEq, Repr

/-- Modelled from the spec: `create_session(uri, remote_id)`. Spec §4.3:
allocates a slot in the session table, transitions it to
connect-in-progress, and returns the local session number; illegal from a
request handler or continuation (`FORBIDDEN_CONTEXT`, observed as `-EPERM`
in `test_api_restrictions.cc`). -/
def create_session (ep : SmEndpoint) : Int × SmEndpoint :=
  if ep.in_handler_or_cont then (FORBIDDEN_CONTEXT, ep)
  else ((ep.sessions.length : Int),
        { ep with sessions := ep.sessions ++ [UserSessState.connectInProgress] })

/-- Linux `EINVAL`, returned (negated) for an invalid session number. -/
def EINVAL : Int := 22

/-- Modelled from the spec: `destroy_session(local_num)`. Spec §4.3:
transitions the session to disconnect-in-progress; illegal from a request
handler or continuation (`FORBIDDEN_CONTEXT`). -/
def destroy_session (ep : SmEndpoint) (local_num : Nat) : Int × SmEndpoint :=
  if ep.in_handler_or_cont then (FORBIDDEN_CONTEXT, ep)
  else if local_num < ep.sessions.length then
    (0, { ep with sessions :=
            (ep.sessions.set local_num UserSessState.disconnectInProgress) })
  else (-EINVAL, ep)

/-- Modelled from the spec: why the endpoint invokes a client continuation
(the completion path of the Rpc core is not under `src/`). Spec §4.5: the
continuation fires on receipt of the final response packet; §4.5/§5/§7:
retransmission-budget exhaustion, session destruction and session failure
invoke the continuation with an empty response buffer. -/
inductive CompletionCause where
  | finalResponse (payload_size : Nat)
  | retransmitExhausted
  | sessionFailure
deriving DecidableEq, Repr

/-- Modelled from the spec: the payload size of the response buffer a
continuation is invoked with, for each completion cause (spec §7: failure
is signalled solely through a zero payload size — no other encoding
reaches the continuation). -/
def cont_resp_size : CompletionCause → Nat
  | CompletionCause.finalResponse n => n
  | CompletionCause.retransmitExhausted => 0
  | CompletionCause.sessionFailure => 0

/-- Whether the completion cause is a successfully completed exchange. -/
def is_successful_completion : CompletionCause → Bool
  | CompletionCause.finalResponse _ => true
  | CompletionCause.retransmitExhausted => false
  | CompletionCause.sessionFailure => false

/-- Modelled from the spec: the per-slot record stored by
`enqueue_request` (spec §9: continuations are function-pointer + context
pairs stored per slot; the function pointer is modelled as a numeric
identifier), together with the tag passed by the user. -/
structure Slot where
  cont : Nat
  tag : Nat
deriving DecidableEq, Repr

/-- Modelled from the spec: the client endpoint state relevant to request
submission and completion (`enqueue_request` and the completion path are
not under `src/`): the opaque application context supplied at endpoint
construction and the per-session slot array. -/
structure ClientEndpoint where
  context : Nat
  slots : List (Option Slot)
deriving DecidableEq, Repr

/-- Index of the first free slot, if any. -/
def find_free_slot : List (Option Slot) → Option Nat
  | [] => none
  | none :: _ => some 0
  | some _ :: rest => (find_free_slot rest).map (· + 1)

/-- Modelled from the spec: `enqueue_request(session, req_type, req, resp,
cont, tag)`. Spec §4.5: selects a free slot and records the continuation
and tag there; fails (negative result, modelled as `none`) when no slot is
free. Returns the chosen slot index and the updated endpoint. -/
def enqueue_request (ep : ClientEndpoint) (cont : Nat) (tag : Nat) :
    Option (Nat × ClientEndpoint) :=
  match find_free_slot ep.slots with
  | none => none
  | some i =>
      some (i, { ep with slots := ep.slots.set i (some { cont := cont, tag := tag }) })

/-- The arguments of one continuation invocation: which continuation
function runs, and the `(resp_handle, context, tag)` triple it receives. -/
structure ContInvocation where
  cont : Nat
  resp_handle : Nat
  context : Nat
  tag : Nat
deriving DecidableEq, Repr

/-- Modelled from the spec: client completion. Spec §4.5: "on receipt of
the final response packet, the endpoint invokes the slot's continuation
with `(resp_handle, context, tag)`". Returns `none` when the slot holds no
in-flight exchange. -/
def complete_exchange (ep : ClientEndpoint) (i : Nat) (resp_handle : Nat) :
    Option ContInvocation :=
  match ep.slots.getD i none with
  | none => none
  | some s =>
      some { cont := s.cont, resp_handle := resp_handle,
             context := ep.context, tag := s.tag }

/- ===================================================================
   Part 4. Witness inputs
   =================================================================== -/

/-- A concrete connected client session, used as a witness input. -/
def sessW : Session :=
  { is_client := true, sst := SessState.connected, local_session_num := 0,
    server_host := 7, server_rpc_id := 2 }

/-- A concrete endpoint state (creator thread 5, one connected client
session), used as a witness input. -/
def stW : RpcState :=
  { rpc_id := 3, creator_tid := 5,
    faults := { resolve_server_rinfo := false, drop_tx_local := false,
                drop_tx_local_countdown := 0 },
    session_vec := [some sessW], sm_queue := [] }

/-- A concrete GET request (payload of `sizeof(Key)` bytes), used as a
witness input. -/
def reqW : KvReq :=
  { handle := 21, req_size := 16, buf := 1000, resp_buf := 2000, keyhash := 5 }

/-- A concrete well-formed server context with one request pending in the
batch, used as a witness input. -/
def ctxW : ServerContext :=
  { init_server_context with num_reqs_tot := 1, num_reqs_in_batch := 1 }

/- ===================================================================
   Part 5. Helper lemmas
   =================================================================== -/

theorem check_ok_of_creator (st : RpcState) (tid : Nat) (h : tid = st.creator_tid) :
    fault_inject_check_ok true st tid = none := by
  unfold fault_inject_check_ok RpcState.in_creator
  simp [h]

theorem check_ok_fail (kFI : Bool) (st : RpcState) (tid : Nat)
    (h : kFI = false ∨ tid ≠ st.creator_tid) :
    fault_inject_check_ok kFI st tid = some OpErr.faultInjectionForbidden := by
  unfold fault_inject_check_ok RpcState.in_creator
  rcases h with h | h
  · subst h; rfl
  · cases kFI
    · rfl
    · simp [h]

theorem check_ok_forbidden_only (kFI : Bool) (st : RpcState) (tid : Nat) (e : OpErr)
    (h : fault_inject_check_ok kFI st tid = some e) :
    e = OpErr.faultInjectionForbidden := by
  unfold fault_inject_check_ok at h
  rcases kFI <;> rcases h2 : st.in_creator tid <;> simp [h2] at h <;> exact h.symm

/- ===================================================================
   Part 6. Claim theorems: fault injection
   =================================================================== -/

/-- Claim C2: every fault-injection operation (`resolve_server_rinfo`,
`drop_tx_local`, `drop_tx_remote`, `reset_remote_peer`), when called from a
thread other than the endpoint's creating thread, or when fault injection
is compile-time disabled, fails with `FAULT_INJECTION_FORBIDDEN` and
leaves the endpoint state unchanged. -/
theorem fault_inject_forbidden_nonowner (kFI : Bool) (tid : Nat) (st : RpcState)
    (pkt_countdown : Nat) (session_num : Int)
    (h : kFI = false ∨ tid ≠ st.creator_tid) :
    fault_inject_resolve_server_rinfo_st kFI tid st =
      (some OpErr.faultInjectionForbidden, st) ∧
    fault_inject_drop_tx_local_st kFI tid st pkt_countdown =
      (some OpErr.faultInjectionForbidden, st) ∧
    fault_inject_drop_tx_remote_st kFI tid st session_num pkt_countdown =
      (some OpErr.faultInjectionForbidden, st) ∧
    fault_inject_reset_remote_epeer_st kFI tid st session_num =
      (some OpErr.faultInjectionForbidden, st) := by
  have hc := check_ok_fail kFI st tid h
  refine ⟨?_, ?_, ?_, ?_⟩
  · unfold fault_inject_resolve_server_rinfo_st; rw [hc]
  · unfold fault_inject_drop_tx_local_st; rw [hc]
  · unfold fault_inject_drop_tx_remote_st; rw [hc]
  · unfold fault_inject_reset_remote_epeer_st; rw [hc]

theorem fault_inject_forbidden_nonowner_witness :
    fault_inject_resolve_server_rinfo_st true 4 stW =
      (some OpErr.faultInjectionForbidden, stW) ∧
    fault_inject_drop_tx_local_st true 4 stW 3 =
      (some OpErr.faultInjectionForbidden, stW) ∧
    fault_inject_drop_tx_remote_st true 4 stW 0 3 =
      (some OpErr.faultInjectionForbidden, stW) ∧
    fault_inject_reset_remote_epeer_st true 4 stW 0 =
      (some OpErr.faultInjectionForbidden, stW) :=
  fault_inject_forbidden_nonowner true 4 stW 3 0 (Or.inr (by decide))

/-- Claim C6: a successful `drop_tx_remote(session, n)` emits exactly one
session-management message of type `kFaultDropTxRemote` carrying `n` to the
session's peer, and mutates no local datapath state (session table and
fault flags are unchanged; only the pending-SM queue grows by that one
message). -/
theorem drop_tx_remote_emits_one_sm (tid : Nat) (st : RpcState)
    (session_num : Int) (pkt_countdown : Nat) (s : Session)
    (htid : tid = st.creator_tid)
    (hget : st.session_vec.getD session_num.toNat none = some s)
    (hrange : is_usr_session_num_in_range st session_num = true)
    (hcl : s.is_client = true)
    (hco : s.is_connected = true) :
    fault_inject_drop_tx_remote_st true tid st session_num pkt_countdown =
      (none,
       { st with sm_queue := st.sm_queue ++
           [{ dest_host := s.server_host, dest_rpc_id := s.server_rpc_id,
              pkt_type := SmPktType.kFaultDropTxRemote,
              data := some pkt_countdown }] }) ∧
    (fault_inject_drop_tx_remote_st true tid st session_num pkt_countdown).2.session_vec
      = st.session_vec ∧
    (fault_inject_drop_tx_remote_st true tid st session_num pkt_countdown).2.faults
      = st.faults := by
  have hc := check_ok_of_creator st tid htid
  have hmain : fault_inject_drop_tx_remote_st true tid st session_num pkt_countdown =
      (none,
       { st with sm_queue := st.sm_queue ++
           [{ dest_host := s.server_host, dest_rpc_id := s.server_rpc_id,
              pkt_type := SmPktType.kFaultDropTxRemote,
              data := some pkt_countdown }] }) := by
    unfold fault_inject_drop_tx_remote_st
    rw [hc, hrange, hget]
    simp [hcl, hco, enqueue_sm_req_st]
  exact ⟨hmain, by rw [hmain], by rw [hmain]⟩

theorem drop_tx_remote_emits_one_sm_witness :
    fault_inject_drop_tx_remote_st true 5 stW 0 9 =
      (none,
       { stW with sm_queue := stW.sm_queue ++
           [{ dest_host := sessW.server_host, dest_rpc_id := sessW.server_rpc_id,
              pkt_type := SmPktType.kFaultDropTxRemote, data := some 9 }] }) ∧
    (fault_inject_drop_tx_remote_st true 5 stW 0 9).2.session_vec = stW.session_vec ∧
    (fault_inject_drop_tx_remote_st true 5 stW 0 9).2.faults = stW.faults :=
  drop_tx_remote_emits_one_sm 5 stW 0 9 sessW (by decide) (by decide) (by decide)
    (by decide) (by decide)

/-- Claim C7: a successful `reset_remote_peer(session)` emits exactly one
session-management message of type `kFaultResetPeerReq` to the session's
peer, and mutates no local datapath state (session table and fault flags
are unchanged; only the pending-SM queue grows by that one message). -/
theorem reset_remote_peer_emits_one_sm (tid : Nat) (st : RpcState)
    (session_num : Int) (s : Session)
    (htid : tid = st.creator_tid)
    (hget : st.session_vec.getD session_num.toNat none = some s)
    (hrange : is_usr_session_num_in_range st session_num = true)
    (hcl : s.is_client = true)
    (hco : s.is_connected = true) :
    fault_inject_reset_remote_epeer_st true tid st session_num =
      (none,
       { st with sm_queue := st.sm_queue ++
           [{ dest_host := s.server_host, dest_rpc_id := s.server_rpc_id,
              pkt_type := SmPktType.kFaultResetPeerReq, data := none }] }) ∧
    (fault_inject_reset_remote_epeer_st true tid st session_num).2.session_vec
      = st.session_vec ∧
    (fault_inject_reset_remote_epeer_st true tid st session_num).2.faults
      = st.faults := by
  have hc := check_ok_of_creator st tid htid
  have hmain : fault_inject_reset_remote_epeer_st true tid st session_num =
      (none,
       { st with sm_queue := st.sm_queue ++
           [{ dest_host := s.server_host, dest_rpc_id := s.server_rpc_id,
              pkt_type := SmPktType.kFaultResetPeerReq, data := none }] }) := by
    unfold fault_inject_reset_remote_epeer_st
    rw [hc, hrange, hget]
    simp [hcl, hco, enqueue_sm_req_st]
  exact ⟨hmain, by rw [hmain], by rw [hmain]⟩

theorem reset_remote_peer_emits_one_sm_witness :
    fault_inject_reset_remote_epeer_st true 5 stW 0 =
      (none,
       { stW with sm_queue := stW.sm_queue ++
           [{ dest_host := sessW.server_host, dest_rpc_id := sessW.server_rpc_id,
              pkt_type := SmPktType.kFaultResetPeerReq, data := none }] }) ∧
    (fault_inject_reset_remote_epeer_st true 5 stW 0).2.session_vec = stW.session_vec ∧
    (fault_inject_reset_remote_epeer_st true 5 stW 0).2.faults = stW.faults :=
  reset_remote_peer_emits_one_sm 5 stW 0 sessW (by decide) (by decide) (by decide)
    (by decide) (by decide)

/-- Claim C9: beyond the creator-thread / compile-time check,
`drop_tx_remote` and `reset_remote_peer` require the session number to be
in range, the table entry to be non-null, and the session to be a
client-side session in the connected state; under these preconditions no
assertion branch of either operation is reachable (for any compile-time
flag and calling thread). -/
theorem fault_inject_asserts_unreachable (kFI : Bool) (tid : Nat) (st : RpcState)
    (session_num : Int) (pkt_countdown : Nat) (s : Session)
    (hget : st.session_vec.getD session_num.toNat none = some s)
    (hrange : is_usr_session_num_in_range st session_num = true)
    (hcl : s.is_client = true)
    (hco : s.is_connected = true) :
    (fault_inject_drop_tx_remote_st kFI tid st session_num pkt_countdown).1
      ≠ some OpErr.assertionFailure ∧
    (fault_inject_reset_remote_epeer_st kFI tid st session_num).1
      ≠ some OpErr.assertionFailure := by
  constructor
  · unfold fault_inject_drop_tx_remote_st
    cases hc : fault_inject_check_ok kFI st tid with
    | some e =>
        have he := check_ok_forbidden_only kFI st tid e hc
        subst he; simp
    | none =>
        rw [hrange, hget]
        simp [hcl, hco]
  · unfold fault_inject_reset_remote_epeer_st
    cases hc : fault_inject_check_ok kFI st tid with
    | some e =>
        have he := check_ok_forbidden_only kFI st tid e hc
        subst he; simp
    | none =>
        rw [hrange, hget]
        simp [hcl, hco]

theorem fault_inject_asserts_unreachable_witness :
    (fault_inject_drop_tx_remote_st true 5 stW 0 3).1
      ≠ some OpErr.assertionFailure ∧
    (fault_inject_reset_remote_epeer_st true 5 stW 0).1
      ≠ some OpErr.assertionFailure :=
  fault_inject_asserts_unreachable true 5 stW 0 3 sessW (by decide) (by decide)
    (by decide) (by decide)

/- ===================================================================
   Part 7. Claim theorems: API restrictions and completion delivery
   =================================================================== -/

/-- Claim C1: calling `run_event_loop`, or deleting the endpoint, from
within a request handler or continuation aborts the process in debug
builds (datapath checks enabled), for every endpoint in such a context. -/
theorem reentrancy_ban (ep : EndpointCtx)
    (hdbg : ep.kDatapathChecks = true)
    (hctx : ep.in_handler_or_cont = true) :
    run_event_loop ep = CallOutcome.fatalAbort ∧
    delete_rpc ep = CallOutcome.fatalAbort := by
  unfold run_event_loop delete_rpc
  rw [hdbg, hctx]
  exact ⟨rfl, rfl⟩

theorem reentrancy_ban_witness :
    run_event_loop { kDatapathChecks := true, in_handler_or_cont := true }
      = CallOutcome.fatalAbort ∧
    delete_rpc { kDatapathChecks := true, in_handler_or_cont := true }
      = CallOutcome.fatalAbort :=
  reentrancy_ban { kDatapathChecks := true, in_handler_or_cont := true } rfl rfl

/-- Claim C4: `destroy_session` and `create_session`, called from within a
request handler or continuation, neither create nor tear down any session;
they return `FORBIDDEN_CONTEXT` (a negative permission error, `-EPERM`)
and leave the endpoint unchanged. -/
theorem forbidden_context_in_handler (ep : SmEndpoint) (local_num : Nat)
    (hctx : ep.in_handler_or_cont = true) :
    create_session ep = (FORBIDDEN_CONTEXT, ep) ∧
    destroy_session ep local_num = (FORBIDDEN_CONTEXT, ep) ∧
    (create_session ep).2.sessions = ep.sessions ∧
    (destroy_session ep local_num).2.sessions = ep.sessions ∧
    FORBIDDEN_CONTEXT < 0 ∧ FORBIDDEN_CONTEXT = -EPERM := by
  have h1 : create_session ep = (FORBIDDEN_CONTEXT, ep) := by
    unfold create_session; rw [hctx]; rfl
  have h2 : destroy_session ep local_num = (FORBIDDEN_CONTEXT, ep) := by
    unfold destroy_session; rw [hctx]; rfl
  exact ⟨h1, h2, by rw [h1], by rw [h2], by decide, rfl⟩

theorem forbidden_context_in_handler_witness :
    create_session { in_handler_or_cont := true,
                     sessions := [UserSessState.connected] } =
      (FORBIDDEN_CONTEXT, { in_handler_or_cont := true,
                            sessions := [UserSessState.connected] }) ∧
    destroy_session { in_handler_or_cont := true,
                      sessions := [UserSessState.connected] } 0 =
      (FORBIDDEN_CONTEXT, { in_handler_or_cont := true,
                            sessions := [UserSessState.connected] }) ∧
    (create_session { in_handler_or_cont := true,
                      sessions := [UserSessState.connected] }).2.sessions =
      [UserSessState.connected] ∧
    (destroy_session { in_handler_or_cont := true,
                       sessions := [UserSessState.connected] } 0).2.sessions =
      [UserSessState.connected] ∧
    FORBIDDEN_CONTEXT < 0 ∧ FORBIDDEN_CONTEXT = -EPERM :=
  forbidden_context_in_handler
    { in_handler_or_cont := true, sessions := [UserSessState.connected] } 0 rfl

/-- Claim C3: the response buffer's payload size delivered to a
continuation distinguishes the outcome — positive exactly when the
exchange completed successfully with that response, zero exactly when the
endpoint could not complete the exchange (given that a delivered
successful response has a nonempty payload, which is how the spec encodes
success). -/
theorem resp_size_encodes_outcome (cause : CompletionCause)
    (hpos : ∀ n : Nat, cause = CompletionCause.finalResponse n → 0 < n) :
    (0 < cont_resp_size cause ↔ is_successful_completion cause = true) ∧
    (cont_resp_size cause = 0 ↔ is_successful_completion cause = false) := by
  cases cause with
  | finalResponse n =>
      have hn : 0 < n := hpos n rfl
      unfold cont_resp_size is_successful_completion
      constructor
      · exact ⟨fun _ => rfl, fun _ => hn⟩
      · exact ⟨fun h0 => absurd h0 (Nat.pos_iff_ne_zero.mp hn),
               fun hb => by cases hb⟩
  | retransmitExhausted => exact ⟨by decide, by decide⟩
  | sessionFailure => exact ⟨by decide, by decide⟩

theorem resp_size_encodes_outcome_witness :
    ((0 < cont_resp_size (CompletionCause.finalResponse 64) ↔
        is_successful_completion (CompletionCause.finalResponse 64) = true) ∧
     (cont_resp_size (CompletionCause.finalResponse 64) = 0 ↔
        is_successful_completion (CompletionCause.finalResponse 64) = false)) ∧
    ((0 < cont_resp_size CompletionCause.retransmitExhausted ↔
        is_successful_completion CompletionCause.retransmitExhausted = true) ∧
     (cont_resp_size CompletionCause.retransmitExhausted = 0 ↔
        is_successful_completion CompletionCause.retransmitExhausted = false)) :=
  ⟨resp_size_encodes_outcome (CompletionCause.finalResponse 64)
     (fun n hn => by cases hn; decide),
   resp_size_encodes_outcome CompletionCause.retransmitExhausted
     (fun n hn => by cases hn)⟩

/-- Helper: `find_free_slot` returns an index whose entry, once set, is
read back by `getD`. -/
theorem find_free_slot_set_getD (l : List (Option Slot)) (i : Nat) (x : Slot)
    (h : find_free_slot l = some i) :
    (l.set i (some x)).getD i none = some x := by
  induction l generalizing i with
  | nil => simp [find_free_slot] at h
  | cons hd tl ih =>
      cases hd with
      | none =>
          simp [find_free_slot] at h
          subst h
          rfl
      | some s =>
          simp [find_free_slot] at h
          rcases h with ⟨j, hj, hij⟩
          subst hij
          simpa [List.set, List.getD] using ih j hj

/-- Claim C8: after a successful `enqueue_request` with continuation
`cont` and tag `tag`, completing the exchange invokes exactly that
continuation with the response handle, the context supplied at endpoint
construction, and the same tag. -/
theorem continuation_receives_enqueued_tag (ep ep' : ClientEndpoint)
    (cont tag i resp_handle : Nat)
    (henq : enqueue_request ep cont tag = some (i, ep')) :
    complete_exchange ep' i resp_handle =
      some { cont := cont, resp_handle := resp_handle,
             context := ep.context, tag := tag } := by
  unfold enqueue_request at henq
  cases hf : find_free_slot ep.slots with
  | none => rw [hf] at henq; cases henq
  | some j =>
      rw [hf] at henq
      have hj : j = i ∧ ep' =
          { ep with slots := ep.slots.set j (some { cont := cont, tag := tag }) } := by
        cases henq; exact ⟨rfl, rfl⟩
      rcases hj with ⟨hji, hep⟩
      subst hji
      subst hep
      unfold complete_exchange
      rw [find_free_slot_set_getD ep.slots j { cont := cont, tag := tag } hf]

theorem continuation_receives_enqueued_tag_witness :
    complete_exchange { context := 11, slots := [some { cont := 42, tag := 7 }] } 0 99 =
      some { cont := 42, resp_handle := 99, context := 11, tag := 7 } :=
  continuation_receives_enqueued_tag
    { context := 11, slots := [none] }
    { context := 11, slots := [some { cont := 42, tag := 7 }] }
    42 7 0 99 rfl

/- ===================================================================
   Part 8. Helper lemmas: KV server batching
   =================================================================== -/

theorem arr_set_lt {α : Type} (l : List α) (i : Nat) (x : α) (h : i < l.length) :
    arr_set l i x = some (l.set i x) := by
  unfold arr_set
  rw [if_pos h]

theorem drain_batch_ok (c : ServerContext) (h : 0 < c.num_reqs_in_batch) :
    drain_batch c = Except.ok { c with
      resps := c.resps ++ c.req_handle_arr.take c.num_reqs_in_batch,
      num_resps_tot := c.num_resps_tot + c.num_reqs_in_batch,
      num_reqs_in_batch := 0 } := by
  unfold drain_batch
  rw [if_neg (by omega)]

theorem req_handler_get_eq (c : ServerContext) (r : KvReq) (hwf : c.wf)
    (hsz : r.req_size = sizeof_key) :
    req_handler c r =
      (if c.num_reqs_in_batch + 1 = kAppMaxServerBatch
       then drain_batch (kv_record c r false r.resp_buf)
       else Except.ok (kv_record c r false r.resp_buf)) := by
  obtain ⟨hn, h1, h2, h3, h4, h5⟩ := hwf
  have e1 := arr_set_lt c.req_handle_arr c.num_reqs_in_batch r.handle (by omega)
  have e2 := arr_set_lt c.key_ptr_arr c.num_reqs_in_batch r.buf (by omega)
  have e3 := arr_set_lt c.keyhash_arr c.num_reqs_in_batch r.keyhash (by omega)
  have e4 := arr_set_lt c.is_set_arr c.num_reqs_in_batch false (by omega)
  have e5 := arr_set_lt c.val_ptr_arr c.num_reqs_in_batch r.resp_buf (by omega)
  have hcls : (if r.req_size = sizeof_key then
                 Except.ok (false, r.resp_buf)
               else if r.req_size = sizeof_key + sizeof_value then
                 Except.ok (true, r.buf + sizeof_key)
               else (Except.error KvErr.assertFailed : Except KvErr (Bool × Nat)))
      = Except.ok (false, r.resp_buf) := by rw [if_pos hsz]
  simp only [req_handler, e1, e2, e3, hcls, e4, e5]
  rfl

theorem req_handler_set_eq (c : ServerContext) (r : KvReq) (hwf : c.wf)
    (hsz : r.req_size = sizeof_key + sizeof_value) :
    req_handler c r =
      (if c.num_reqs_in_batch + 1 = kAppMaxServerBatch
       then drain_batch (kv_record c r true (r.buf + sizeof_key))
       else Except.ok (kv_record c r true (r.buf + sizeof_key))) := by
  obtain ⟨hn, h1, h2, h3, h4, h5⟩ := hwf
  have e1 := arr_set_lt c.req_handle_arr c.num_reqs_in_batch r.handle (by omega)
  have e2 := arr_set_lt c.key_ptr_arr c.num_reqs_in_batch r.buf (by omega)
  have e3 := arr_set_lt c.keyhash_arr c.num_reqs_in_batch r.keyhash (by omega)
  have e4 := arr_set_lt c.is_set_arr c.num_reqs_in_batch true (by omega)
  have e5 := arr_set_lt c.val_ptr_arr c.num_reqs_in_batch (r.buf + sizeof_key) (by omega)
  have hne : r.req_size ≠ sizeof_key := by rw [hsz]; unfold sizeof_key sizeof_value; omega
  have hcls : (if r.req_size = sizeof_key then
                 Except.ok (false, r.resp_buf)
               else if r.req_size = sizeof_key + sizeof_value then
                 Except.ok (true, r.buf + sizeof_key)
               else (Except.error KvErr.assertFailed : Except KvErr (Bool × Nat)))
      = Except.ok (true, r.buf + sizeof_key) := by rw [if_neg hne, if_pos hsz]
  simp only [req_handler, e1, e2, e3, hcls, e4, e5]
  rfl

theorem req_handler_bad_eq (c : ServerContext) (r : KvReq) (hwf : c.wf)
    (hg : r.req_size ≠ sizeof_key) (hs : r.req_size ≠ sizeof_key + sizeof_value) :
    req_handler c r = Except.error KvErr.assertFailed := by
  obtain ⟨hn, h1, h2, h3, h4, h5⟩ := hwf
  have e1 := arr_set_lt c.req_handle_arr c.num_reqs_in_batch r.handle (by omega)
  have e2 := arr_set_lt c.key_ptr_arr c.num_reqs_in_batch r.buf (by omega)
  have e3 := arr_set_lt c.keyhash_arr c.num_reqs_in_batch r.keyhash (by omega)
  have hcls : (if r.req_size = sizeof_key then
                 Except.ok (false, r.resp_buf)
               else if r.req_size = sizeof_key + sizeof_value then
                 Except.ok (true, r.buf + sizeof_key)
               else (Except.error KvErr.assertFailed : Except KvErr (Bool × Nat)))
      = Except.error KvErr.assertFailed := by rw [if_neg hg, if_neg hs]
  simp only [req_handler, e1, e2, e3, hcls]

theorem kv_record_arrays_wf (c : ServerContext) (r : KvReq) (b : Bool) (v : Nat)
    (h : c.arrays_wf) : (kv_record c r b v).arrays_wf := by
  obtain ⟨h1, h2, h3, h4, h5⟩ := h
  unfold ServerContext.arrays_wf kv_record at *
  simp only [List.length_set]
  exact ⟨h1, h2, h3, h4, h5⟩

theorem drain_batch_wf (c c' : ServerContext) (ha : c.arrays_wf)
    (h : drain_batch c = Except.ok c') : c'.wf := by
  unfold drain_batch at h
  by_cases h0 : c.num_reqs_in_batch = 0
  · rw [if_pos h0] at h; cases h
  · rw [if_neg h0] at h
    cases h
    refine ⟨?_, ?_⟩
    · show (0 : Nat) < kAppMaxServerBatch
      decide
    · obtain ⟨h1, h2, h3, h4, h5⟩ := ha
      exact ⟨h1, h2, h3, h4, h5⟩

theorem req_handler_ok_wf (c c' : ServerContext) (r : KvReq) (hwf : c.wf)
    (hok : req_handler c r = Except.ok c') : c'.wf := by
  by_cases hg : r.req_size = sizeof_key
  · rw [req_handler_get_eq c r hwf hg] at hok
    by_cases hfull : c.num_reqs_in_batch + 1 = kAppMaxServerBatch
    · rw [if_pos hfull] at hok
      exact drain_batch_wf _ _ (kv_record_arrays_wf c r false r.resp_buf hwf.2) hok
    · rw [if_neg hfull] at hok
      cases hok
      refine ⟨?_, kv_record_arrays_wf c r false r.resp_buf hwf.2⟩
      show c.num_reqs_in_batch + 1 < kAppMaxServerBatch
      have hlt := hwf.1
      have h16 : kAppMaxServerBatch = 16 := rfl
      rw [h16] at hfull hlt ⊢
      omega
  · by_cases hs : r.req_size = sizeof_key + sizeof_value
    · rw [req_handler_set_eq c r hwf hs] at hok
      by_cases hfull : c.num_reqs_in_batch + 1 = kAppMaxServerBatch
      · rw [if_pos hfull] at hok
        exact drain_batch_wf _ _ (kv_record_arrays_wf c r true (r.buf + sizeof_key) hwf.2) hok
      · rw [if_neg hfull] at hok
        cases hok
        refine ⟨?_, kv_record_arrays_wf c r true (r.buf + sizeof_key) hwf.2⟩
        show c.num_reqs_in_batch + 1 < kAppMaxServerBatch
        have hlt := hwf.1
        have h16 : kAppMaxServerBatch = 16 := rfl
        rw [h16] at hfull hlt ⊢
        omega
    · rw [req_handler_bad_eq c r hwf hg hs] at hok
      cases hok

theorem drain_batch_not_oob (c : ServerContext) :
    drain_batch c ≠ Except.error KvErr.oobIndex := by
  unfold drain_batch
  by_cases h0 : c.num_reqs_in_batch = 0
  · rw [if_pos h0]; intro h; cases h
  · rw [if_neg h0]; intro h; cases h

theorem req_handler_not_oob (c : ServerContext) (r : KvReq) (hwf : c.wf) :
    req_handler c r ≠ Except.error KvErr.oobIndex := by
  by_cases hg : r.req_size = sizeof_key
  · rw [req_handler_get_eq c r hwf hg]
    by_cases hfull : c.num_reqs_in_batch + 1 = kAppMaxServerBatch
    · rw [if_pos hfull]; exact drain_batch_not_oob _
    · rw [if_neg hfull]; intro h; cases h
  · by_cases hs : r.req_size = sizeof_key + sizeof_value
    · rw [req_handler_set_eq c r hwf hs]
      by_cases hfull : c.num_reqs_in_batch + 1 = kAppMaxServerBatch
      · rw [if_pos hfull]; exact drain_batch_not_oob _
      · rw [if_neg hfull]; intro h; cases h
    · rw [req_handler_bad_eq c r hwf hg hs]; intro h; cases h

theorem init_server_context_wf : init_server_context.wf := by
  refine ⟨by decide, ?_, ?_, ?_, ?_, ?_⟩ <;> rfl

theorem kv_reachable_wf (c : ServerContext) (h : KvReachable c) : c.wf := by
  induction h with
  | init => exact init_server_context_wf
  | handler hr hok ih => exact req_handler_ok_wf _ _ _ ih hok
  | idle_drain hr hpos hok ih => exact drain_batch_wf _ _ ih.2 hok

theorem req_handler_ok_shape (c c' : ServerContext) (r : KvReq) (hwf : c.wf)
    (hok : req_handler c r = Except.ok c') :
    ∃ b v, req_handler c r =
      (if c.num_reqs_in_batch + 1 = kAppMaxServerBatch
       then drain_batch (kv_record c r b v)
       else Except.ok (kv_record c r b v)) := by
  by_cases hg : r.req_size = sizeof_key
  · exact ⟨false, r.resp_buf, req_handler_get_eq c r hwf hg⟩
  · by_cases hs : r.req_size = sizeof_key + sizeof_value
    · exact ⟨true, r.buf + sizeof_key, req_handler_set_eq c r hwf hs⟩
    · rw [req_handler_bad_eq c r hwf hg hs] at hok
      cases hok

/- ===================================================================
   Part 9. Claim theorems: KV server batching
   =================================================================== -/

/-- Claim C5: the KV server defers response submission until either the
batch size `kAppMaxServerBatch` is reached inside `req_handler` or the
event loop observes an iteration in which no new requests arrived; at that
point responses for exactly the requests accumulated in the batch are
submitted, in order, and the batch becomes empty. -/
theorem kv_server_batching_policy (c c' : ServerContext) (r : KvReq)
    (hwf : c.wf) :
    (req_handler c r = Except.ok c' →
       c.num_reqs_in_batch + 1 ≠ kAppMaxServerBatch →
       c'.resps = c.resps ∧
       c'.num_reqs_in_batch = c.num_reqs_in_batch + 1) ∧
    (req_handler c r = Except.ok c' →
       c.num_reqs_in_batch + 1 = kAppMaxServerBatch →
       c'.num_reqs_in_batch = 0 ∧
       c'.resps = c.resps ++ (c.req_handle_arr.set c.num_reqs_in_batch r.handle) ∧
       c'.num_resps_tot = c.num_resps_tot + kAppMaxServerBatch) ∧
    (0 < c.num_reqs_in_batch →
       ev_loop_iter c [] = Except.ok { c with
         resps := c.resps ++ c.req_handle_arr.take c.num_reqs_in_batch,
         num_resps_tot := c.num_resps_tot + c.num_reqs_in_batch,
         num_reqs_in_batch := 0 }) := by
  refine ⟨?_, ?_, ?_⟩
  · intro hok hfull
    obtain ⟨b, v, heq⟩ := req_handler_ok_shape c c' r hwf hok
    rw [heq, if_neg hfull] at hok
    cases hok
    exact ⟨rfl, rfl⟩
  · intro hok hfull
    obtain ⟨b, v, heq⟩ := req_handler_ok_shape c c' r hwf hok
    rw [heq, if_pos hfull] at hok
    rw [drain_batch_ok (kv_record c r b v) (Nat.succ_pos c.num_reqs_in_batch)] at hok
    cases hok
    have hlen : (c.req_handle_arr.set c.num_reqs_in_batch r.handle).length
        = c.num_reqs_in_batch + 1 := by
      rw [List.length_set, hwf.2.1, hfull]
    refine ⟨rfl, ?_, ?_⟩
    · show c.resps ++ (c.req_handle_arr.set c.num_reqs_in_batch r.handle).take
        (c.num_reqs_in_batch + 1) = _
      rw [← hlen, List.take_length]
    · show c.num_resps_tot + (c.num_reqs_in_batch + 1) = _
      rw [hfull]
  · intro hpos
    unfold ev_loop_iter
    show (match (Except.ok c : Except KvErr ServerContext) with
          | Except.error e => Except.error e
          | Except.ok c1 =>
              if c1.num_reqs_tot = c.num_reqs_tot ∧ 0 < c1.num_reqs_in_batch then
                drain_batch c1
              else Except.ok c1) = _
    rw [show (match (Except.ok c : Except KvErr ServerContext) with
          | Except.error e => Except.error e
          | Except.ok c1 =>
              if c1.num_reqs_tot = c.num_reqs_tot ∧ 0 < c1.num_reqs_in_batch then
                drain_batch c1
              else Except.ok c1)
        = (if c.num_reqs_tot = c.num_reqs_tot ∧ 0 < c.num_reqs_in_batch then
             drain_batch c
           else Except.ok c) from rfl]
    rw [if_pos ⟨rfl, hpos⟩]
    exact drain_batch_ok c hpos

theorem kv_server_batching_policy_witness :
    ((req_handler ctxW reqW = Except.ok (kv_record ctxW reqW false reqW.resp_buf) →
        ctxW.num_reqs_in_batch + 1 ≠ kAppMaxServerBatch →
        (kv_record ctxW reqW false reqW.resp_buf).resps = ctxW.resps ∧
        (kv_record ctxW reqW false reqW.resp_buf).num_reqs_in_batch =
          ctxW.num_reqs_in_batch + 1) ∧
     (req_handler ctxW reqW = Except.ok (kv_record ctxW reqW false reqW.resp_buf) →
        ctxW.num_reqs_in_batch + 1 = kAppMaxServerBatch →
        (kv_record ctxW reqW false reqW.resp_buf).num_reqs_in_batch = 0 ∧
        (kv_record ctxW reqW false reqW.resp_buf).resps =
          ctxW.resps ++ (ctxW.req_handle_arr.set ctxW.num_reqs_in_batch reqW.handle) ∧
        (kv_record ctxW reqW false reqW.resp_buf).num_resps_tot =
          ctxW.num_resps_tot + kAppMaxServerBatch) ∧
     (0 < ctxW.num_reqs_in_batch →
        ev_loop_iter ctxW [] = Except.ok { ctxW with
          resps := ctxW.resps ++ ctxW.req_handle_arr.take ctxW.num_reqs_in_batch,
          num_resps_tot := ctxW.num_resps_tot + ctxW.num_reqs_in_batch,
          num_reqs_in_batch := 0 })) :=
  kv_server_batching_policy ctxW (kv_record ctxW reqW false reqW.resp_buf) reqW
    (by refine ⟨by decide, ?_, ?_, ?_, ?_, ?_⟩ <;> rfl)

/-- Claim C10: at every state at which the KV server can enter
`req_handler`, `num_reqs_in_batch` is strictly below `kAppMaxServerBatch`
(so the transient value after the increment stays at most
`kAppMaxServerBatch`), and running `req_handler` there never indexes any of
the fixed-size per-batch arrays out of bounds. -/
theorem kv_batch_no_out_of_bounds (c : ServerContext) (r : KvReq)
    (h : KvReachable c) :
    c.num_reqs_in_batch < kAppMaxServerBatch ∧
    c.num_reqs_in_batch + 1 ≤ kAppMaxServerBatch ∧
    req_handler c r ≠ Except.error KvErr.oobIndex := by
  have hwf := kv_reachable_wf c h
  refine ⟨hwf.1, ?_, req_handler_not_oob c r hwf⟩
  have hlt := hwf.1
  have h16 : kAppMaxServerBatch = 16 := rfl
  rw [h16] at hlt ⊢
  omega

theorem kv_batch_no_out_of_bounds_witness :
    init_server_context.num_reqs_in_batch < kAppMaxServerBatch ∧
    init_server_context.num_reqs_in_batch + 1 ≤ kAppMaxServerBatch ∧
    req_handler init_server_context reqW ≠ Except.error KvErr.oobIndex :=
  kv_batch_no_out_of_bounds init_server_context reqW KvReachable.init
